import Mathlib

/-!
Verification of the autark host-provisioning helper.

This file gives a shallow embedding of the platform-classification and
provisioning logic of the repository (`utils` platform detection,
`commands/doctor.go`, `commands/setup.go`) and proves the behavioural
properties claimed about it.  External effects (executable lookups on the
search path, command invocations, the random number source, file contents)
are modelled as explicit parameters; the decision logic itself is translated
function by function from the Go source.
-/

namespace Autark

/-! String helpers.

Character-level models of the `strings` package functions the source uses:
`strings.Contains`, `strings.HasPrefix`, and the quote-cutset
`strings.Trim`.  They are written over `List Char` so that facts about them are
provable by structural induction. -/

/-- Model of `strings.HasPrefix` at the character-list level. -/
def listHasPre : List Char → List Char → Bool
  | [], _ => true
  | _ :: _, [] => false
  | a :: as, b :: bs => a = b && listHasPre as bs

/-- Model of `strings.Contains` at the character-list level: does `sub`
occur as a contiguous run inside `l`? -/
def listContainsSub (sub : List Char) : List Char → Bool
  | [] => listHasPre sub []
  | l@(_ :: rest) => listHasPre sub l || listContainsSub sub rest

/-- Model of `strings.HasPrefix s pre`. -/
def strHasPre (s pre : String) : Bool := listHasPre pre.toList s.toList

/-- Model of `strings.Contains s sub`. -/
def strContains (s sub : String) : Bool := listContainsSub sub.toList s.toList

/-- The single-quote character (code point 39). -/
def singleQuote : Char := Char.ofNat 39

/-- The cutset of the `strings.Trim` call in `parseOSRelease`: a double or
single quote. -/
def isQuoteChar (c : Char) : Bool := c = '"' || c = singleQuote

/-- Model of the quote-cutset `strings.Trim` call on a character list:
drop quote characters from both ends. -/
def trimQuotesList (l : List Char) : List Char :=
  ((l.dropWhile isQuoteChar).reverse.dropWhile isQuoteChar).reverse

/-- Model of the quote-cutset `strings.Trim` call on strings. -/
def trimQuotes (s : String) : String := String.mk (trimQuotesList s.toList)

/-- ASCII whitespace, the part of the `strings.TrimSpace` cutset that the
parsed files use. -/
def isSpaceChar (c : Char) : Bool := c = ' ' || c = '\t' || c = '\n' || c = '\r'

/-- Model of `strings.TrimSpace` at the character-list level. -/
def trimSpaceList (l : List Char) : List Char :=
  ((l.dropWhile isSpaceChar).reverse.dropWhile isSpaceChar).reverse

/-- Model of `strings.TrimSpace` on strings. -/
def strTrimSpace (s : String) : String := String.mk (trimSpaceList s.toList)

/-- Model of `strings.SplitN(line, "=", 2)`: the characters before the
first `=` and the characters after it, or `none` when the line has no `=`
(the `len(parts) != 2` case of the source). -/
def splitEq : List Char → Option (List Char × List Char)
  | [] => none
  | c :: cs =>
    if c = '=' then some ([], cs)
    else
      match splitEq cs with
      | none => none
      | some kv => some (c :: kv.1, kv.2)

/-! Platform model (`utils`, platform detection).

`LinuxDistro` and `PackageManager` are string types in the Go source; the
distro is modelled as an inductive enumeration (its constants are pairwise
distinct string literals) and the package manager keeps the string
representation, since `repairGit` dispatches on arbitrary strings. -/

/-- The `LinuxDistro` constants of the source. -/
inductive LinuxDistro where
  | debian | ubuntu | fedora | rhel | centos | arch
  | alpine | opensuse | gentoo | void | unknown
deriving DecidableEq, Repr

/-- The `PackageManager` string constant `PkgMgrApt`. -/
def PkgMgrApt : String := "apt"

/-- The `PackageManager` string constant `PkgMgrDnf`. -/
def PkgMgrDnf : String := "dnf"

/-- The `PackageManager` string constant `PkgMgrPacman`. -/
def PkgMgrPacman : String := "pacman"

/-- The `PackageManager` string constant `PkgMgrApk`. -/
def PkgMgrApk : String := "apk"

/-- The `PackageManager` string constant `PkgMgrZypper`. -/
def PkgMgrZypper : String := "zypper"

/-- The `PackageManager` string constant `PkgMgrEmerge`. -/
def PkgMgrEmerge : String := "emerge"

/-- The `PackageManager` string constant `PkgMgrXbpsInstall`. -/
def PkgMgrXbpsInstall : String := "xbps-install"

/-- The `PackageManager` string constant `PkgMgrSnap`. -/
def PkgMgrSnap : String := "snap"

/-- The `PackageManager` string constant `PkgMgrFlatpak`. -/
def PkgMgrFlatpak : String := "flatpak"

/-- The `PackageManager` string constant `PkgMgrBrew`. -/
def PkgMgrBrew : String := "brew"

/-- The `PackageManager` string constant `PkgMgrPort`. -/
def PkgMgrPort : String := "port"

/-- The `PackageManager` string constant `PkgMgrPkg`. -/
def PkgMgrPkg : String := "pkg"

/-- The `PackageManager` string constant `PkgMgrChoco`. -/
def PkgMgrChoco : String := "choco"

/-- The `PackageManager` string constant `PkgMgrWinget`. -/
def PkgMgrWinget : String := "winget"

/-- The `PackageManager` string constant `PkgMgrUnknown`. -/
def PkgMgrUnknown : String := "unknown"

/-- The `ID` values the `ubuntu` case of `detectLinuxDistro` matches. -/
def ubuntuIds : List String :=
  ["ubuntu", "linuxmint", "pop", "elementary", "zorin", "kali", "raspbian", "neon"]

/-- The `ID` values the `rhel` case of `detectLinuxDistro` matches. -/
def rhelIds : List String := ["rhel", "rocky", "almalinux", "ol", "amzn"]

/-- The `ID` values the `arch` case of `detectLinuxDistro` matches. -/
def archIds : List String := ["arch", "manjaro", "endeavouros", "garuda", "artix"]

/-- The `ID` values the `opensuse` case of `detectLinuxDistro` matches. -/
def opensuseIds : List String :=
  ["opensuse", "opensuse-leap", "opensuse-tumbleweed", "sles"]

/-- Every `ID` value appearing in a case label of the `switch` in
`detectLinuxDistro` (the static id-to-family table). -/
def recognizedIds : List String :=
  ["debian"] ++ ubuntuIds ++ ["fedora"] ++ rhelIds ++ ["centos"] ++ archIds
    ++ ["alpine"] ++ opensuseIds ++ ["gentoo"] ++ ["void"]

/-- The `switch p.LinuxDistroID` of `detectLinuxDistro`: resolve the parsed
`ID` and `ID_LIKE` values to a distro family.  The final `unknown` is the
initial value of `PlatformInfo.LinuxDistro` set by `DetectPlatform`, which
the Go default branch leaves untouched when no `ID_LIKE` substring
matches. -/
def resolveLinuxDistro (id idLike : String) : LinuxDistro :=
  if id = "debian" then .debian
  else if id ∈ ubuntuIds then .ubuntu
  else if id = "fedora" then .fedora
  else if id ∈ rhelIds then .rhel
  else if id = "centos" then .centos
  else if id ∈ archIds then .arch
  else if id = "alpine" then .alpine
  else if id ∈ opensuseIds then .opensuse
  else if id = "gentoo" then .gentoo
  else if id = "void" then .void
  else if strContains idLike "debian" || strContains idLike "ubuntu" then .debian
  else if strContains idLike "fedora" || strContains idLike "rhel" then .fedora
  else if strContains idLike "arch" then .arch
  else if strContains idLike "suse" then .opensuse
  else .unknown

/-- Fallback probe of `detectLinuxPackageManagerFallback`: probe every distro-specific manager
in the documented popularity order, then `snap`, then `flatpak`; leave the
current manager `pm0` unchanged when nothing is found.  `ex` models
`CommandExists` (presence of an executable on the search path). -/
def detectLinuxPackageManagerFallback (ex : String → Bool) (pm0 : String) : String :=
  if ex "apt-get" then PkgMgrApt
  else if ex "dnf" then PkgMgrDnf
  else if ex "pacman" then PkgMgrPacman
  else if ex "zypper" then PkgMgrZypper
  else if ex "apk" then PkgMgrApk
  else if ex "emerge" then PkgMgrEmerge
  else if ex "xbps-install" then PkgMgrXbpsInstall
  else if ex "snap" then PkgMgrSnap
  else if ex "flatpak" then PkgMgrFlatpak
  else pm0

/-- Function `detectLinuxPackageManager`: probe the manager canonically associated
with the resolved family; the fallback chain is reached only through the
`default` case of the `switch`, i.e. for the `unknown` family.  `pm0` is the
manager value before the call (`PkgMgrUnknown` in `DetectPlatform`). -/
def detectLinuxPackageManager (ex : String → Bool) (distro : LinuxDistro)
    (pm0 : String) : String :=
  match distro with
  | .debian | .ubuntu => if ex "apt-get" then PkgMgrApt else pm0
  | .fedora | .rhel | .centos => if ex "dnf" then PkgMgrDnf else pm0
  | .arch => if ex "pacman" then PkgMgrPacman else pm0
  | .alpine => if ex "apk" then PkgMgrApk else pm0
  | .opensuse => if ex "zypper" then PkgMgrZypper else pm0
  | .gentoo => if ex "emerge" then PkgMgrEmerge else pm0
  | .void => if ex "xbps-install" then PkgMgrXbpsInstall else pm0
  | .unknown => detectLinuxPackageManagerFallback ex pm0

/-- The fallback probe chain of `detectLinuxPackageManagerFallback` as a
list of (probed executable, resulting manager) pairs, in source order. -/
def probeChain : List (String × String) :=
  [("apt-get", PkgMgrApt), ("dnf", PkgMgrDnf), ("pacman", PkgMgrPacman),
   ("zypper", PkgMgrZypper), ("apk", PkgMgrApk), ("emerge", PkgMgrEmerge),
   ("xbps-install", PkgMgrXbpsInstall), ("snap", PkgMgrSnap),
   ("flatpak", PkgMgrFlatpak)]

/-- Spec-side comparator for the fallback chain: the manager of the first
present executable of the chain, or the default when none is present. -/
def firstHit (ex : String → Bool) : List (String × String) → String → String
  | [], d => d
  | (n, m) :: rest, d => if ex n then m else firstHit ex rest d

/-! Claims C1 to C3: Linux family and package-manager resolution. -/

/-- Host for the C1 counterexample: exactly `dnf` is on the search path. -/
def exOnlyDnf : String → Bool := fun s => s = "dnf"

/-- C1 counterexample: on a host of family `debian` whose canonical manager
`apt-get` is absent but where `dnf` (the first present manager of the
fallback chain) exists, `detectLinuxPackageManager` leaves the manager
`unknown` instead of falling through to the fallback chain: the chain is
reached only via the `default` case of the `switch`, i.e. for family
`unknown`. -/
theorem pm_fallback_not_reached_for_known_family :
    detectLinuxPackageManager exOnlyDnf LinuxDistro.debian PkgMgrUnknown = PkgMgrUnknown
    ∧ detectLinuxPackageManagerFallback exOnlyDnf PkgMgrUnknown = PkgMgrDnf
    ∧ PkgMgrUnknown ≠ PkgMgrDnf := by
  refine ⟨?_, ?_, ?_⟩ <;>
    simp [detectLinuxPackageManager, detectLinuxPackageManagerFallback, exOnlyDnf,
      PkgMgrUnknown, PkgMgrDnf]

/-- C1 (amended): on Linux, the canonical manager of the resolved family is
probed, and when that probe fails the package manager stays unchanged
(`unknown`); the fixed fallback chain — every distro-specific manager,
finally `snap` then `flatpak` — is consulted only for the `unknown` family,
where the first present manager of the chain wins. -/
theorem linux_pm_resolution (ex : String → Bool) (pm0 : String) :
    (ex "apt-get" = false →
      detectLinuxPackageManager ex LinuxDistro.debian pm0 = pm0
      ∧ detectLinuxPackageManager ex LinuxDistro.ubuntu pm0 = pm0)
    ∧ (ex "dnf" = false →
      detectLinuxPackageManager ex LinuxDistro.fedora pm0 = pm0
      ∧ detectLinuxPackageManager ex LinuxDistro.rhel pm0 = pm0
      ∧ detectLinuxPackageManager ex LinuxDistro.centos pm0 = pm0)
    ∧ (ex "pacman" = false → detectLinuxPackageManager ex LinuxDistro.arch pm0 = pm0)
    ∧ (ex "apk" = false → detectLinuxPackageManager ex LinuxDistro.alpine pm0 = pm0)
    ∧ (ex "zypper" = false → detectLinuxPackageManager ex LinuxDistro.opensuse pm0 = pm0)
    ∧ (ex "emerge" = false → detectLinuxPackageManager ex LinuxDistro.gentoo pm0 = pm0)
    ∧ (ex "xbps-install" = false → detectLinuxPackageManager ex LinuxDistro.void pm0 = pm0)
    ∧ detectLinuxPackageManager ex LinuxDistro.unknown pm0 = firstHit ex probeChain pm0 := by
  refine ⟨fun h => ?_, fun h => ?_, fun h => ?_, fun h => ?_, fun h => ?_,
    fun h => ?_, fun h => ?_, ?_⟩ <;>
    simp [detectLinuxPackageManager, detectLinuxPackageManagerFallback, probeChain,
      firstHit, *]

/-- Closed witness for the amended C1 theorem at a concrete host where only
`dnf` exists: every recognized family keeps its prior manager when its
canonical executable is absent, and the unknown family resolves through the
chain. -/
theorem linux_pm_resolution_witness :
    detectLinuxPackageManager exOnlyDnf LinuxDistro.arch PkgMgrUnknown = PkgMgrUnknown
    ∧ detectLinuxPackageManager exOnlyDnf LinuxDistro.unknown PkgMgrUnknown
        = firstHit exOnlyDnf probeChain PkgMgrUnknown := by
  have h := linux_pm_resolution exOnlyDnf PkgMgrUnknown
  exact ⟨h.2.2.1 (by decide), h.2.2.2.2.2.2.2⟩

/-- C2: with an unrecognized release-metadata `ID` (family `unknown`) and
exactly `pacman` and `snap` present among the probed candidates, the
resolved package manager is `pacman` and never `snap`: every distro-specific
manager of the fallback chain outranks the cross-platform managers. -/
theorem fallback_pacman_beats_snap (id idLike : String) (ex : String → Bool)
    (hfam : resolveLinuxDistro id idLike = LinuxDistro.unknown)
    (h1 : ex "apt-get" = false) (h2 : ex "dnf" = false) (h3 : ex "pacman" = true)
    (h4 : ex "zypper" = false) (h5 : ex "apk" = false) (h6 : ex "emerge" = false)
    (h7 : ex "xbps-install" = false) (h8 : ex "snap" = true)
    (h9 : ex "flatpak" = false) :
    detectLinuxPackageManager ex (resolveLinuxDistro id idLike) PkgMgrUnknown = PkgMgrPacman
    ∧ detectLinuxPackageManager ex (resolveLinuxDistro id idLike) PkgMgrUnknown
        ≠ PkgMgrSnap := by
  rw [hfam]
  constructor
  · simp [detectLinuxPackageManager, detectLinuxPackageManagerFallback, h1, h2, h3]
  · simp [detectLinuxPackageManager, detectLinuxPackageManagerFallback, h1, h2, h3,
      PkgMgrPacman, PkgMgrSnap]

/-- Host for the C2 witness: exactly `pacman` and `snap` are present. -/
def exPacmanSnap : String → Bool := fun s => s = "pacman" || s = "snap"

/-- Closed witness for the C2 theorem on a concrete unrecognized-ID host
where exactly `pacman` and `snap` exist. -/
theorem fallback_pacman_beats_snap_witness :
    detectLinuxPackageManager exPacmanSnap (resolveLinuxDistro "somedistro" "") PkgMgrUnknown
        = PkgMgrPacman
    ∧ detectLinuxPackageManager exPacmanSnap (resolveLinuxDistro "somedistro" "") PkgMgrUnknown
        ≠ PkgMgrSnap :=
  fallback_pacman_beats_snap "somedistro" "" exPacmanSnap (by decide) (by decide)
    (by decide) (by decide) (by decide) (by decide) (by decide) (by decide)
    (by decide) (by decide)

/-- C3 counterexample: the claim fails as stated.  With the unrecognized
`ID=mydistro` and `ID_LIKE=debian rhel` — which contains the substring
`rhel` — the family resolves to `debian`, not `fedora`, because the default
branch tests the debian/ubuntu substrings before the fedora/rhel ones. -/
theorem distro_rhel_idlike_counterexample :
    strContains "debian rhel" "rhel" = true
    ∧ "mydistro" ∉ recognizedIds
    ∧ resolveLinuxDistro "mydistro" "debian rhel" = LinuxDistro.debian
    ∧ resolveLinuxDistro "mydistro" "debian rhel" ≠ LinuxDistro.fedora := by
  refine ⟨by decide, by decide, by decide, by decide⟩

/-- C3 (amended): family resolution is a deterministic function of `ID` and
`ID_LIKE`; `ID=ubuntu` resolves to the ubuntu family for every `ID_LIKE`;
and for every `ID` outside the static table, if `ID_LIKE` contains the
substring `rhel` and contains neither `debian` nor `ubuntu` then the family
resolves to the fedora family. -/
theorem distro_resolution (id idLike : String) :
    resolveLinuxDistro "ubuntu" idLike = LinuxDistro.ubuntu
    ∧ (id ∉ recognizedIds → strContains idLike "rhel" = true →
        strContains idLike "debian" = false → strContains idLike "ubuntu" = false →
        resolveLinuxDistro id idLike = LinuxDistro.fedora) := by
  constructor
  · simp [resolveLinuxDistro, ubuntuIds]
  · intro hrec hrhel hdeb hub
    simp only [recognizedIds, ubuntuIds, rhelIds, archIds, opensuseIds,
      List.mem_append, List.mem_cons, List.mem_singleton, List.not_mem_nil,
      not_or] at hrec
    simp only [resolveLinuxDistro, ubuntuIds, rhelIds, archIds, opensuseIds,
      List.mem_cons, List.not_mem_nil, hrhel, hdeb, hub] at *
    simp_all

/-- Closed witness for the amended C3 theorem at `ID=mydistro`,
`ID_LIKE=centos rhel`. -/
theorem distro_resolution_witness :
    resolveLinuxDistro "ubuntu" "centos rhel" = LinuxDistro.ubuntu
    ∧ resolveLinuxDistro "mydistro" "centos rhel" = LinuxDistro.fedora := by
  have h := distro_resolution "mydistro" "centos rhel"
  exact ⟨h.1, h.2 (by decide) (by decide) (by decide) (by decide)⟩

/-! Claim C4: the release-metadata parser (`parseOSRelease`). -/

/-- One iteration of the scanner loop of `parseOSRelease`: trim the line,
skip it when empty or starting with `#`, split at the first `=` (skipping
lines without one), and strip surrounding quotes from the value. -/
def parseLine (line : String) : Option (String × String) :=
  let t := trimSpaceList line.toList
  if t.isEmpty || listHasPre ['#'] t then none
  else
    match splitEq t with
    | none => none
    | some kv => some (String.mk kv.1, String.mk (trimQuotesList kv.2))

/-- Function `parseOSRelease` on a list of lines, as the map it builds: the Go
`result[key] = value` assignment makes the last occurrence of a key win. -/
def parseOSRelease (lines : List String) : String → Option String :=
  lines.foldl
    (fun m line =>
      match parseLine line with
      | none => m
      | some kv => fun q => if q = kv.1 then some kv.2 else m q)
    (fun _ => none)

/-- A skipped line (empty or comment after trimming) parses to nothing. -/
theorem parseLine_skip (line : String)
    (h : trimSpaceList line.toList = []
      ∨ listHasPre ['#'] (trimSpaceList line.toList) = true) :
    parseLine line = none := by
  have h' : trimSpaceList line.data = []
      ∨ listHasPre ['#'] (trimSpaceList line.data) = true := h
  unfold parseLine
  rcases h' with h' | h' <;> simp [h']

/-- Folding one parsed line over the map state. -/
theorem parseOSRelease_append (ls1 ls2 : List String) :
    parseOSRelease (ls1 ++ ls2)
      = ls2.foldl
          (fun m line =>
            match parseLine line with
            | none => m
            | some kv => fun q => if q = kv.1 then some kv.2 else m q)
          (parseOSRelease ls1) := by
  unfold parseOSRelease
  rw [List.foldl_append]

/-- Dropping quote characters from both ends absorbs one surrounding pair:
the core equation behind value unquoting. -/
theorem trimQuotesList_surround (c : Char) (hc : isQuoteChar c = true) (l : List Char) :
    trimQuotesList (c :: (l ++ [c])) = trimQuotesList l := by
  unfold trimQuotesList
  rw [List.dropWhile_cons]
  simp only [hc, if_true]
  rw [List.dropWhile_append]
  by_cases h : List.dropWhile isQuoteChar l = []
  · simp [h, List.dropWhile_cons, hc]
  · simp [h, List.dropWhile_cons, hc, List.reverse_append]

/-- C4: the release-metadata parser skips empty and `#` lines wherever they
occur; stripping one pair of surrounding double or single quotes from a raw
value does not change the parsed value; on duplicate keys the last
occurrence wins (`ID=a` then `ID=b` yields `b`); parsing is deterministic
(the same content always parses to the same map); and swapping two adjacent
lines whose parsed keys differ does not change the parsed map. -/
theorem parseOSRelease_spec :
    (∀ ls1 ls2 line,
      (trimSpaceList line.toList = []
        ∨ listHasPre ['#'] (trimSpaceList line.toList) = true) →
      parseOSRelease (ls1 ++ line :: ls2) = parseOSRelease (ls1 ++ ls2))
    ∧ (∀ l, trimQuotesList ('"' :: (l ++ ['"'])) = trimQuotesList l
        ∧ trimQuotesList (singleQuote :: (l ++ [singleQuote])) = trimQuotesList l)
    ∧ parseOSRelease ["ID=a", "ID=b"] "ID" = some "b"
    ∧ parseOSRelease ["ID=\"ubuntu\""] "ID" = some "ubuntu"
    ∧ parseOSRelease ["ID=\x27arch\x27"] "ID" = some "arch"
    ∧ (∀ ls, parseOSRelease ls = parseOSRelease ls)
    ∧ (∀ ls1 ls2 l1 l2,
        (∀ k1 v1 k2 v2, parseLine l1 = some (k1, v1) → parseLine l2 = some (k2, v2) →
          k1 ≠ k2) →
        parseOSRelease (ls1 ++ l1 :: l2 :: ls2) = parseOSRelease (ls1 ++ l2 :: l1 :: ls2)) := by
  refine ⟨?_, ?_, by decide, by decide, by decide, fun ls => rfl, ?_⟩
  · intro ls1 ls2 line h
    rw [parseOSRelease_append, parseOSRelease_append, List.foldl_cons,
      parseLine_skip line h]
  · intro l
    exact ⟨trimQuotesList_surround '"' (by decide) l,
      trimQuotesList_surround singleQuote (by decide) l⟩
  · intro ls1 ls2 l1 l2 hk
    rw [parseOSRelease_append, parseOSRelease_append, List.foldl_cons, List.foldl_cons,
      List.foldl_cons, List.foldl_cons]
    congr 1
    cases h1 : parseLine l1 with
    | none => cases h2 : parseLine l2 with
      | none => rfl
      | some kv2 => rfl
    | some kv1 =>
      cases h2 : parseLine l2 with
      | none => rfl
      | some kv2 =>
        have hne : kv1.1 ≠ kv2.1 := hk kv1.1 kv1.2 kv2.1 kv2.2 (by simp [h1]) (by simp [h2])
        funext q
        by_cases e1 : q = kv1.1
        · subst e1
          simp [hne]
        · by_cases e2 : q = kv2.1 <;> simp [e1, e2, Ne.symm hne]

/-- Closed witness for the C4 theorem: a comment line in the middle of a
file is skipped, and swapping the adjacent distinct-key lines `ID=a` and
`VERSION=1` leaves the parsed map unchanged. -/
theorem parseOSRelease_spec_witness :
    parseOSRelease (["ID=a"] ++ "# note" :: ["VERSION=1"])
        = parseOSRelease (["ID=a"] ++ ["VERSION=1"])
    ∧ parseOSRelease ([] ++ "ID=a" :: "VERSION=1" :: [])
        = parseOSRelease ([] ++ "VERSION=1" :: "ID=a" :: []) := by
  refine ⟨parseOSRelease_spec.1 ["ID=a"] ["VERSION=1"] "# note" ?_,
    parseOSRelease_spec.2.2.2.2.2.2 [] [] "ID=a" "VERSION=1" ?_⟩
  · right
    decide
  · intro k1 v1 k2 v2 h1 h2
    simp only [show parseLine "ID=a" = some ("ID", "a") from by decide,
      Option.some.injEq, Prod.mk.injEq] at h1
    simp only [show parseLine "VERSION=1" = some ("VERSION", "1") from by decide,
      Option.some.injEq, Prod.mk.injEq] at h2
    rcases h1 with ⟨hk1, -⟩
    rcases h2 with ⟨hk2, -⟩
    subst hk1
    subst hk2
    decide

/-! The doctor command (`commands/doctor.go`).

External effects are collected in `DoctorEnv`: privilege state, presence
and version-probe outcomes of the tools, daemon liveness, the resolved
package manager, and the outcomes of the repair invocations.  Within one
run these are fixed, matching the synchronous single-process execution of
the source. -/

/-- The outside world as the doctor command observes it. -/
structure DoctorEnv where
  isRoot : Bool
  onWindows : Bool
  gitExists : Bool
  gitVersion : Except String String
  dockerExists : Bool
  dockerVersion : Except String String
  daemonRunning : Bool
  pm : String
  repairGitOutcome : Except String Unit
  repairDockerOutcome : Except String Unit
  ensureDaemonOutcome : Except String Unit
deriving Repr

/-- The `DoctorResult` record of the source. -/
structure DoctorResult where
  name : String
  installed : Bool
  version : String
  errMsg : Option String
deriving DecidableEq, Repr

/-- Go `checkRootPrivileges`. -/
def checkRootPrivileges (env : DoctorEnv) : DoctorResult :=
  if env.isRoot then
    ⟨"root/admin privileges", true,
      if env.onWindows then "administrator" else "root", none⟩
  else
    ⟨"root/admin privileges", false, "",
      some (if env.onWindows then "not running as administrator"
        else "not running as root")⟩

/-- Go `checkGit`: absent executable gives a bare not-installed result; a
failing version probe records its error; success records the trimmed
version text. -/
def checkGit (env : DoctorEnv) : DoctorResult :=
  if !env.gitExists then ⟨"git", false, "", none⟩
  else
    match env.gitVersion with
    | .error e => ⟨"git", false, "", some e⟩
    | .ok out => ⟨"git", true, strTrimSpace out, none⟩

/-- Go `checkDocker`, same shape as `checkGit`. -/
def checkDocker (env : DoctorEnv) : DoctorResult :=
  if !env.dockerExists then ⟨"docker", false, "", none⟩
  else
    match env.dockerVersion with
    | .error e => ⟨"docker", false, "", some e⟩
    | .ok out => ⟨"docker", true, strTrimSpace out, none⟩

/-- Go `checkDockerDaemon`: inapplicable (with reason `docker not installed`)
when the docker check did not succeed. -/
def checkDockerDaemon (env : DoctorEnv) (dockerR : DoctorResult) : DoctorResult :=
  if !dockerR.installed then ⟨"docker daemon", false, "", some "docker not installed"⟩
  else if env.daemonRunning then ⟨"docker daemon", true, "running", none⟩
  else ⟨"docker daemon", false, "", some "not running"⟩

/-- Observable steps of a doctor run: output lines (`message` for plain
writes, `checkLine` for the one line `printResult` prints per check) and
the external repair invocations. -/
inductive DoctorEvent where
  | message (s : String)
  | checkLine (installed : Bool) (name : String) (text : String)
  | repairGitCall
  | repairDockerCall
  | ensureDaemonCall
deriving DecidableEq, Repr

/-- Go `printResult`: the one output line of a check, `[OK] name: version`
(defaulting to `installed`) on success and `[ERROR] name: reason`
(defaulting to `not found`) on failure. -/
def printResult (r : DoctorResult) : DoctorEvent :=
  .checkLine r.installed r.name
    (if r.installed then (if r.version = "" then "installed" else r.version)
     else r.errMsg.getD "not found")

/-- The four checks of `runDoctor`, in source order. -/
def doctorResults (env : DoctorEnv) : List DoctorResult :=
  [checkRootPrivileges env, checkGit env, checkDocker env,
   checkDockerDaemon env (checkDocker env)]

/-- The issue count of `runDoctor`: the number of checks whose `Installed`
field is false. -/
def doctorIssues (env : DoctorEnv) : Nat :=
  ((doctorResults env).filter (fun r => !r.installed)).length

/-- The `repairGit` dispatch on the package-manager identifier: the
external command sequence to run, or the error the function returns
without running anything. -/
def repairGitDispatch (pm : String) : Except String (List (List String)) :=
  if pm = PkgMgrApt then
    .ok [["apt-get", "update", "-qq", "&&", "apt-get", "install", "-y", "-qq", "git"]]
  else if pm = PkgMgrDnf then .ok [["dnf", "install", "-y", "-q", "git"]]
  else if pm = PkgMgrPacman then .ok [["pacman", "-Sy", "--noconfirm", "git"]]
  else if pm = PkgMgrApk then .ok [["apk", "add", "--quiet", "git"]]
  else if pm = PkgMgrZypper then .ok [["zypper", "install", "-y", "-q", "git"]]
  else if pm = PkgMgrEmerge then .ok [["emerge", "--quiet", "dev-vcs/git"]]
  else if pm = PkgMgrXbpsInstall then .ok [["xbps-install", "-y", "git"]]
  else if pm = PkgMgrSnap then .ok [["snap", "install", "git"]]
  else if pm = PkgMgrFlatpak then
    .error "git cannot be installed via flatpak, please install git manually"
  else if pm = PkgMgrBrew then .ok [["brew", "install", "git"]]
  else if pm = PkgMgrPort then .ok [["port", "install", "git"]]
  else if pm = PkgMgrPkg then .ok [["pkg", "install", "-y", "git"]]
  else if pm = PkgMgrWinget then
    .ok [["winget", "install", "--id", "Git.Git", "-e", "--silent"]]
  else if pm = PkgMgrChoco then .ok [["choco", "install", "git", "-y"]]
  else .error ("unsupported package manager: " ++ pm)

/-- Go `repairGit` as invoked by `runDoctor`: dispatch on the platform
manager; a dispatch error is returned directly, otherwise the outcome of
the external command sequence decides. -/
def repairGitRun (env : DoctorEnv) : Except String Unit :=
  match repairGitDispatch env.pm with
  | .error e => .error e
  | .ok _ => env.repairGitOutcome

/-- Go `runDoctor`: the observable event sequence and the process exit code
(0 for a normal return). -/
def runDoctor (env : DoctorEnv) (repair : Bool) : List DoctorEvent × Nat :=
  let results := doctorResults env
  let header : List DoctorEvent :=
    [.message "Checking system requirements...", .message ""]
  let checkLines := results.map printResult
  let issues := doctorIssues env
  if issues = 0 then
    (header ++ checkLines ++ [.message "", .message "All requirements satisfied!"], 0)
  else
    let found := header ++ checkLines
      ++ [.message "", .message ("Found " ++ toString issues ++ " issue(s).")]
    if !repair then
      (found ++ [.message "",
        .message "Run autark doctor --repair to fix missing dependencies."], 1)
    else if !env.isRoot then
      (found ++ [.message "",
        .message (if env.onWindows then "Error: --repair requires administrator privileges."
          else "Error: --repair requires root privileges."),
        .message (if env.onWindows then "Please run this command as Administrator."
          else "Please run this command with sudo.")], 1)
    else
      let gitFail := !(checkGit env).installed
        && (match repairGitRun env with | .ok _ => false | .error _ => true)
      let dockerFail := !(checkDocker env).installed
        && (match env.repairDockerOutcome with | .ok _ => false | .error _ => true)
      let daemonFail := !(checkDockerDaemon env (checkDocker env)).installed
        && (match env.ensureDaemonOutcome with | .ok _ => false | .error _ => true)
      let gitEvents :=
        if !(checkGit env).installed then
          DoctorEvent.repairGitCall ::
            (match repairGitRun env with
             | .ok _ => [DoctorEvent.message "git installed successfully."]
             | .error e => [DoctorEvent.message ("Failed to install git: " ++ e)])
        else []
      let dockerEvents :=
        if !(checkDocker env).installed then
          DoctorEvent.repairDockerCall ::
            (match env.repairDockerOutcome with
             | .ok _ => [DoctorEvent.message "docker installed successfully."]
             | .error e => [DoctorEvent.message ("Failed to install docker: " ++ e)])
        else []
      let daemonEvents :=
        if !(checkDockerDaemon env (checkDocker env)).installed then
          DoctorEvent.ensureDaemonCall ::
            (match env.ensureDaemonOutcome with
             | .ok _ => []
             | .error e => [DoctorEvent.message ("Failed to start docker daemon: " ++ e)])
        else []
      let repairErrors := (if gitFail then 1 else 0) + (if dockerFail then 1 else 0)
        + (if daemonFail then 1 else 0)
      (found ++ [.message "", .message "Attempting to repair...", .message ""]
        ++ gitEvents ++ dockerEvents ++ daemonEvents
        ++ (if repairErrors > 0 then
             [.message "",
              .message ("Repair completed with " ++ toString repairErrors ++ " error(s).")]
            else [.message "", .message "Repair completed successfully."]),
       if repairErrors > 0 then 1 else 0)

/-- Does the event invoke one of the three repair procedures? -/
def isRepairEvent : DoctorEvent → Bool
  | .repairGitCall => true
  | .repairDockerCall => true
  | .ensureDaemonCall => true
  | _ => false

/-- Is the event a per-check output line? -/
def isCheckLineEvent : DoctorEvent → Bool
  | .checkLine _ _ _ => true
  | _ => false

/-- Is the event an ERROR check line naming git? -/
def isGitErrorLine : DoctorEvent → Bool
  | .checkLine installed name _ => !installed && name == "git"
  | _ => false

/-- The check name carried by a check line (empty for other events). -/
def eventName : DoctorEvent → String
  | .checkLine _ name _ => name
  | _ => ""

/-- A check line is never a repair invocation. -/
theorem isRepairEvent_printResult (r : DoctorResult) :
    isRepairEvent (printResult r) = false := rfl

/-- A check line is a check line. -/
theorem isCheckLineEvent_printResult (r : DoctorResult) :
    isCheckLineEvent (printResult r) = true := rfl

/-- The git-error test on a check line looks only at the installed flag
and the name. -/
theorem isGitErrorLine_printResult (r : DoctorResult) :
    isGitErrorLine (printResult r) = (!r.installed && r.name == "git") := rfl

/-- The name of the privilege check. -/
theorem checkRootPrivileges_name (env : DoctorEnv) :
    (checkRootPrivileges env).name = "root/admin privileges" := by
  unfold checkRootPrivileges
  split <;> rfl

/-- The name of the git check. -/
theorem checkGit_name (env : DoctorEnv) : (checkGit env).name = "git" := by
  unfold checkGit
  split
  · rfl
  · split <;> rfl

/-- The name of the docker check. -/
theorem checkDocker_name (env : DoctorEnv) : (checkDocker env).name = "docker" := by
  unfold checkDocker
  split
  · rfl
  · split <;> rfl

/-- The name of the daemon check. -/
theorem checkDockerDaemon_name (env : DoctorEnv) (r : DoctorResult) :
    (checkDockerDaemon env r).name = "docker daemon" := by
  unfold checkDockerDaemon
  split
  · rfl
  · split <;> rfl

/-- The privilege check fails exactly when the process is not elevated. -/
theorem checkRootPrivileges_installed (env : DoctorEnv) :
    (checkRootPrivileges env).installed = env.isRoot := by
  unfold checkRootPrivileges
  split <;> simp_all

/-- In report mode the event trace is the fixed header, then one check
line per check, then plain messages only. -/
theorem runDoctor_report_events (env : DoctorEnv) :
    ∃ tail, (runDoctor env false).1
      = [DoctorEvent.message "Checking system requirements...", .message ""]
        ++ (doctorResults env).map printResult ++ tail
      ∧ ∀ e ∈ tail, ∃ s, e = DoctorEvent.message s := by
  unfold runDoctor
  by_cases hiss : doctorIssues env = 0
  · refine ⟨[.message "", .message "All requirements satisfied!"], ?_, ?_⟩
    · simp [hiss]
    · intro e he
      simp only [List.mem_cons, List.not_mem_nil, or_false] at he
      rcases he with rfl | rfl
      · exact ⟨"", rfl⟩
      · exact ⟨"All requirements satisfied!", rfl⟩
  · refine ⟨[.message "", .message ("Found " ++ toString (doctorIssues env) ++ " issue(s)."),
      .message "", .message "Run autark doctor --repair to fix missing dependencies."],
      ?_, ?_⟩
    · simp only [hiss, if_false, Bool.not_false, if_true]
      simp
    · intro e he
      simp only [List.mem_cons, List.not_mem_nil, or_false] at he
      rcases he with rfl | rfl | rfl | rfl
      · exact ⟨"", rfl⟩
      · exact ⟨_, rfl⟩
      · exact ⟨"", rfl⟩
      · exact ⟨_, rfl⟩

/-- C5: in repair mode, when the privilege check reports false the run
exits with code 1 and no repair procedure (git, docker, or the docker
daemon) is ever invoked. -/
theorem doctor_repair_requires_root (env : DoctorEnv) (h : env.isRoot = false) :
    (runDoctor env true).2 = 1
    ∧ ∀ e ∈ (runDoctor env true).1, isRepairEvent e = false := by
  have hroot : (checkRootPrivileges env).installed = false := by
    rw [checkRootPrivileges_installed, h]
  have hiss : ¬doctorIssues env = 0 := by
    unfold doctorIssues doctorResults
    rw [List.filter_cons]
    simp [hroot]
  constructor
  · unfold runDoctor
    simp [hiss, h]
  · have hdec : ∃ tail, (runDoctor env true).1
        = [DoctorEvent.message "Checking system requirements...", .message ""]
          ++ ((doctorResults env).map printResult ++ tail)
        ∧ ∀ e ∈ tail, ∃ s, e = DoctorEvent.message s := by
      refine ⟨[.message "", .message ("Found " ++ toString (doctorIssues env) ++ " issue(s)."),
        .message "",
        .message (if env.onWindows then "Error: --repair requires administrator privileges."
          else "Error: --repair requires root privileges."),
        .message (if env.onWindows then "Please run this command as Administrator."
          else "Please run this command with sudo.")], ?_, ?_⟩
      · unfold runDoctor
        simp [hiss, h]
      · intro e he
        simp only [List.mem_cons, List.not_mem_nil, or_false] at he
        rcases he with rfl | rfl | rfl | rfl | rfl <;> exact ⟨_, rfl⟩
    obtain ⟨tail, hev, htail⟩ := hdec
    intro e he
    rw [hev] at he
    rcases List.mem_append.mp he with hh | hBC
    · simp only [List.mem_cons, List.not_mem_nil, or_false] at hh
      rcases hh with rfl | rfl <;> rfl
    · rcases List.mem_append.mp hBC with hm | ht
      · obtain ⟨r, _, rfl⟩ := List.mem_map.mp hm
        exact isRepairEvent_printResult r
      · obtain ⟨s, rfl⟩ := htail e ht
        rfl

/-- Concrete non-elevated host for the C5 witness. -/
def envC5 : DoctorEnv :=
  ⟨false, false, true, .ok "git version 2.39.0", true, .ok "Docker version 24.0",
   true, PkgMgrApt, .ok (), .ok (), .ok ()⟩

/-- Closed witness for the C5 theorem on a concrete non-elevated host. -/
theorem doctor_repair_requires_root_witness :
    (runDoctor envC5 true).2 = 1
    ∧ ∀ e ∈ (runDoctor envC5 true).1, isRepairEvent e = false :=
  doctor_repair_requires_root envC5 rfl

/-- The name carried by a printed check line is the name of the check. -/
theorem eventName_printResult (r : DoctorResult) :
    eventName (printResult r) = r.name := rfl

/-- C6: doctor without the repair flag prints exactly one line per check —
in order: privileges, git, docker, docker daemon, the daemon check being
marked inapplicable with reason `docker not installed` when docker is
absent — and returns exit code 0 iff no check failed; on a host missing
git the output contains exactly one ERROR check line naming git. -/
theorem doctor_report_mode (env : DoctorEnv) :
    ((runDoctor env false).2 = 0 ↔ doctorIssues env = 0)
    ∧ ((runDoctor env false).1.filter isCheckLineEvent).map eventName
        = ["root/admin privileges", "git", "docker", "docker daemon"]
    ∧ (env.dockerExists = false →
        DoctorEvent.checkLine false "docker daemon" "docker not installed"
          ∈ (runDoctor env false).1)
    ∧ (env.gitExists = false →
        (runDoctor env false).1.filter isGitErrorLine
          = [DoctorEvent.checkLine false "git" "not found"]) := by
  refine ⟨?_, ?_, ?_, ?_⟩
  · unfold runDoctor
    by_cases hiss : doctorIssues env = 0 <;> simp [hiss]
  · obtain ⟨tail, hev, htail⟩ := runDoctor_report_events env
    rw [hev, List.filter_append, List.filter_append]
    have h1 : List.filter isCheckLineEvent
        [DoctorEvent.message "Checking system requirements...", .message ""] = [] := rfl
    have h2 : tail.filter isCheckLineEvent = [] := by
      rw [List.filter_eq_nil_iff]
      intro a ha
      obtain ⟨s, rfl⟩ := htail a ha
      simp [isCheckLineEvent]
    have h3 : ((doctorResults env).map printResult).filter isCheckLineEvent
        = (doctorResults env).map printResult := by
      rw [List.filter_eq_self]
      intro a ha
      obtain ⟨r, _, rfl⟩ := List.mem_map.mp ha
      simp [isCheckLineEvent_printResult]
    rw [h1, h2, h3, List.nil_append, List.append_nil, List.map_map]
    simp [doctorResults, eventName_printResult, checkRootPrivileges_name,
      checkGit_name, checkDocker_name, checkDockerDaemon_name]
  · intro hde
    obtain ⟨tail, hev, htail⟩ := runDoctor_report_events env
    rw [hev]
    have hcd : checkDocker env = ⟨"docker", false, "", none⟩ := by
      unfold checkDocker
      simp [hde]
    have hdd : checkDockerDaemon env (checkDocker env)
        = ⟨"docker daemon", false, "", some "docker not installed"⟩ := by
      rw [hcd]
      rfl
    apply List.mem_append.mpr
    left
    apply List.mem_append.mpr
    right
    apply List.mem_map.mpr
    refine ⟨checkDockerDaemon env (checkDocker env), ?_, ?_⟩
    · simp [doctorResults]
    · rw [hdd]
      rfl
  · intro hge
    obtain ⟨tail, hev, htail⟩ := runDoctor_report_events env
    rw [hev, List.filter_append, List.filter_append]
    have hcg : checkGit env = ⟨"git", false, "", none⟩ := by
      unfold checkGit
      simp [hge]
    have h1 : List.filter isGitErrorLine
        [DoctorEvent.message "Checking system requirements...", .message ""] = [] := rfl
    have h2 : tail.filter isGitErrorLine = [] := by
      rw [List.filter_eq_nil_iff]
      intro a ha
      obtain ⟨s, rfl⟩ := htail a ha
      simp [isGitErrorLine]
    have e1 : isGitErrorLine (printResult (checkRootPrivileges env)) = false := by
      rw [isGitErrorLine_printResult, checkRootPrivileges_name]
      simp
    have e2 : isGitErrorLine (printResult (checkGit env)) = true := by
      rw [hcg]
      rfl
    have e3 : isGitErrorLine (printResult (checkDocker env)) = false := by
      rw [isGitErrorLine_printResult, checkDocker_name]
      simp
    have e4 : isGitErrorLine (printResult (checkDockerDaemon env (checkDocker env)))
        = false := by
      rw [isGitErrorLine_printResult, checkDockerDaemon_name]
      simp
    rw [h1, h2, List.nil_append, List.append_nil]
    simp only [doctorResults, List.map_cons, List.map_nil, List.filter_cons,
      e1, e2, e3, e4]
    rw [hcg]
    rfl

/-- Concrete host missing both git and docker for the C6 witness. -/
def envC6 : DoctorEnv :=
  ⟨true, false, false, .ok "", false, .ok "", false, PkgMgrApt, .ok (), .ok (), .ok ()⟩

/-- Closed witness for the C6 theorem on a concrete host missing git and
docker. -/
theorem doctor_report_mode_witness :
    ((runDoctor envC6 false).2 = 0 ↔ doctorIssues envC6 = 0)
    ∧ (DoctorEvent.checkLine false "docker daemon" "docker not installed"
        ∈ (runDoctor envC6 false).1)
    ∧ (runDoctor envC6 false).1.filter isGitErrorLine
        = [DoctorEvent.checkLine false "git" "not found"] :=
  ⟨(doctor_report_mode envC6).1, (doctor_report_mode envC6).2.2.1 rfl,
   (doctor_report_mode envC6).2.2.2 rfl⟩

/-! The setup command (`commands/setup.go`): registry provisioning. -/

/-- Model of `strings.ToLower` on a character list (ASCII letters). -/
def lowerList (l : List Char) : List Char := l.map Char.toLower

/-- The outside world as the registry phase of setup observes it: docker
presence, the `docker info` probe, the `docker ps` status query, the
container-run outcome, and the re-probe outcomes after installation. -/
structure SetupEnv where
  dockerExists : Bool
  infoOk : Bool
  infoOutput : String
  psOk : Bool
  psOutput : String
  runOk : Bool
  infoOkAfter : Bool
  infoOutputAfter : String
  psOkAfter : Bool
  psOutputAfter : String
deriving Repr

/-- Go `checkDockerDaemonRunning` of setup: the error it reports for a failing
`docker info`, classified by the combined output text. -/
def daemonProbeErr (infoOk : Bool) (infoOutput : String) : Option String :=
  if infoOk then none
  else
    let outputStr := strTrimSpace infoOutput
    if strContains outputStr "Cannot connect to the Docker daemon"
        || strContains outputStr "Is the docker daemon running" then
      some "Docker daemon is not running. Please start Docker first"
    else if outputStr ≠ "" then some ("Docker error: " ++ outputStr)
    else some "Docker daemon is not accessible"

/-- Go `checkRegistryRunning`: docker present, daemon reachable, then the
trimmed status of the uniquely-named container; the container counts as
running iff the lowercased status starts with `up`. -/
def checkRegistryRunning (dockerExists infoOk : Bool) (infoOutput : String)
    (psOk : Bool) (psOutput : String) : Except String Bool :=
  if !dockerExists then .error "docker is not installed"
  else
    match daemonProbeErr infoOk infoOutput with
    | some e => .error e
    | none =>
      if !psOk then .error "failed to check docker containers"
      else
        let status := strTrimSpace psOutput
        if status = "" then .ok false
        else .ok (listHasPre ['u', 'p'] (lowerList status.toList))

/-- Observable steps of the registry phase of `runSetup`: output lines,
the force-remove of a stale container (`docker rm -f`), and the creation
of the registry container (`docker run ... -p port:5000`). -/
inductive SetupEvent where
  | message (s : String)
  | removeContainer
  | runContainer (port : Nat)
deriving DecidableEq, Repr

/-- The registry phase of `runSetup` (the code after the firewall and SSH
phases, which touch no container): check docker, query the registry
container, stop with success when it is already running, otherwise
force-remove any stale container, run a new one, and re-verify. -/
def runSetupRegistry (env : SetupEnv) (port : Nat) : List SetupEvent × Nat :=
  let pre : List SetupEvent :=
    [.message "Checking Docker registry status...", .message ""]
  if !env.dockerExists then
    (pre ++ [.message "Docker is not installed. Please run autark doctor --repair first."], 1)
  else
    match checkRegistryRunning env.dockerExists env.infoOk env.infoOutput
        env.psOk env.psOutput with
    | .error e => (pre ++ [.message ("Error checking registry status: " ++ e)], 1)
    | .ok true =>
      (pre ++ [.message ("Docker registry is already running on port "
        ++ toString port ++ ".")], 0)
    | .ok false =>
      let ev1 := pre
        ++ [.message ("Docker registry is not running on port " ++ toString port ++ "."),
            .message "", .message "Installing Docker registry...",
            .removeContainer, .runContainer port]
      if !env.runOk then
        (ev1 ++ [.message "Failed to install registry: failed to start registry container"], 1)
      else
        match checkRegistryRunning env.dockerExists env.infoOkAfter env.infoOutputAfter
            env.psOkAfter env.psOutputAfter with
        | .error e => (ev1 ++ [.message ("Error verifying registry status: " ++ e)], 1)
        | .ok true =>
          (ev1 ++ [.message "",
            .message ("Docker registry successfully installed and running on port "
              ++ toString port ++ "."),
            .message "The registry will automatically restart on system boot."], 0)
        | .ok false =>
          (ev1 ++ [.message "Registry container started but is not running. Please check Docker logs."], 1)

/-- C7: when the registry container already reports a status beginning,
case-insensitively, with `Up`, the registry phase of setup exits with code
0 and performs no container remove and no container run. -/
theorem setup_registry_already_running (env : SetupEnv) (port : Nat)
    (h1 : env.dockerExists = true) (h2 : env.infoOk = true) (h3 : env.psOk = true)
    (h4 : listHasPre ['u', 'p'] (lowerList (strTrimSpace env.psOutput).toList) = true) :
    (runSetupRegistry env port).2 = 0
    ∧ SetupEvent.removeContainer ∉ (runSetupRegistry env port).1
    ∧ ∀ p, SetupEvent.runContainer p ∉ (runSetupRegistry env port).1 := by
  have hne : ¬strTrimSpace env.psOutput = "" := by
    intro h0
    rw [h0] at h4
    exact absurd h4 (by decide)
  have h4' : listHasPre ['u', 'p'] (lowerList (strTrimSpace env.psOutput).data) = true := h4
  have hcheck : checkRegistryRunning env.dockerExists env.infoOk env.infoOutput
      env.psOk env.psOutput = .ok true := by
    rw [h1, h2, h3]
    unfold checkRegistryRunning daemonProbeErr
    simp [hne, h4']
  rw [h1] at hcheck
  unfold runSetupRegistry
  refine ⟨?_, ?_, ?_⟩ <;> simp [h1, hcheck]

/-- Concrete host for the C7 witness: the registry container reports
`Up 2 hours`. -/
def envC7 : SetupEnv := ⟨true, true, "", true, "Up 2 hours", true, true, "", true, ""⟩

/-- Closed witness for the C7 theorem at registry port 5000 on a host
whose registry container reports `Up 2 hours`. -/
theorem setup_registry_already_running_witness :
    (runSetupRegistry envC7 5000).2 = 0
    ∧ SetupEvent.removeContainer ∉ (runSetupRegistry envC7 5000).1
    ∧ ∀ p, SetupEvent.runContainer p ∉ (runSetupRegistry envC7 5000).1 :=
  setup_registry_already_running envC7 5000 rfl rfl rfl (by decide)

/-! SSH port generation (`generateRandomPort`, C8). -/

/-- The `minPort` constant of `generateRandomPort`. -/
def minPort : Nat := 1025

/-- The `maxPort` constant of `generateRandomPort`. -/
def maxPort : Nat := 65535

/-- The `maxAttempts` constant of `generateRandomPort`. -/
def maxAttempts : Nat := 100

/-- The attempt loop of `generateRandomPort`: `draw i` models the `i`-th
value of the random source (`rand.Intn` is its value modulo the range),
`avail` models `isTCPPortAvailable`; when the fuel runs out the hardcoded
fallback port 2222 is returned. -/
def genPortLoop (draw : Nat → Nat) (avail : Nat → Bool) : Nat → Nat → Nat
  | _, 0 => 2222
  | i, fuel + 1 =>
    if avail (minPort + draw i % (maxPort - minPort)) then
      minPort + draw i % (maxPort - minPort)
    else genPortLoop draw avail (i + 1) fuel

/-- Go `generateRandomPort`: up to `maxAttempts` draws starting at attempt 0. -/
def generateRandomPort (draw : Nat → Nat) (avail : Nat → Bool) : Nat :=
  genPortLoop draw avail 0 maxAttempts

/-- Loop invariant for `genPortLoop`: the result is above 1024, is either
an accepted (available) candidate or the fallback 2222, and is exactly 2222
when every draw in the window fails the availability check. -/
theorem genPortLoop_spec (draw : Nat → Nat) (avail : Nat → Bool) :
    ∀ fuel i, 1024 < genPortLoop draw avail i fuel
      ∧ (avail (genPortLoop draw avail i fuel) = true
          ∨ genPortLoop draw avail i fuel = 2222)
      ∧ ((∀ j, i ≤ j → j < i + fuel →
            avail (minPort + draw j % (maxPort - minPort)) = false) →
          genPortLoop draw avail i fuel = 2222) := by
  intro fuel
  induction fuel with
  | zero =>
    intro i
    exact ⟨by norm_num [genPortLoop], Or.inr rfl, fun _ => rfl⟩
  | succ n ih =>
    intro i
    by_cases h : avail (minPort + draw i % (maxPort - minPort)) = true
    · refine ⟨?_, ?_, ?_⟩
      · simp only [genPortLoop, h, if_true]
        have : 1025 ≤ minPort + draw i % (maxPort - minPort) := Nat.le_add_right _ _
        omega
      · left
        simp only [genPortLoop, h, if_true]
      · intro hall
        exact absurd (hall i (Nat.le_refl i) (by omega)) (by simp [h])
    · have h' : avail (minPort + draw i % (maxPort - minPort)) = false := by
        simpa using h
      have hstep : genPortLoop draw avail i (n + 1) = genPortLoop draw avail (i + 1) n := by
        simp only [genPortLoop, h']
        simp
      refine ⟨?_, ?_, ?_⟩
      · rw [hstep]
        exact (ih (i + 1)).1
      · rw [hstep]
        exact (ih (i + 1)).2.1
      · intro hall
        rw [hstep]
        exact (ih (i + 1)).2.2 (fun j hj1 hj2 => hall j (by omega) (by omega))

/-- C8: SSH port generation never returns a value at or below 1024, never
returns a candidate that failed its own availability check (any non-2222
result passed the check), and when all `maxAttempts` (100) draws fail it
returns the hardcoded fallback 2222 — the function is total by
construction. -/
theorem generateRandomPort_spec (draw : Nat → Nat) (avail : Nat → Bool) :
    1024 < generateRandomPort draw avail
    ∧ (avail (generateRandomPort draw avail) = true
        ∨ generateRandomPort draw avail = 2222)
    ∧ ((∀ i, i < maxAttempts →
          avail (minPort + draw i % (maxPort - minPort)) = false) →
        generateRandomPort draw avail = 2222) := by
  have h := genPortLoop_spec draw avail maxAttempts 0
  exact ⟨h.1, h.2.1, fun hall => h.2.2 (fun j _ hj => hall j (by omega))⟩

/-- Random source for the C8 witness: always draw 0. -/
def drawC8 : Nat → Nat := fun _ => 0

/-- Availability oracle for the C8 witness: no port is ever available. -/
def availC8 : Nat → Bool := fun _ => false

/-- Closed witness for the C8 theorem: with no port ever available the
generator returns the fallback 2222, which is above 1024. -/
theorem generateRandomPort_spec_witness :
    1024 < generateRandomPort drawC8 availC8
    ∧ generateRandomPort drawC8 availC8 = 2222 :=
  ⟨(generateRandomPort_spec drawC8 availC8).1,
   (generateRandomPort_spec drawC8 availC8).2.2 (fun _ _ => rfl)⟩

/-! Claim C9: the git install dispatch table. -/

/-- The 14 recognized package-manager identifiers (every constant except
`unknown`). -/
def recognizedManagers : List String :=
  [PkgMgrApt, PkgMgrDnf, PkgMgrPacman, PkgMgrApk, PkgMgrZypper, PkgMgrEmerge,
   PkgMgrXbpsInstall, PkgMgrSnap, PkgMgrFlatpak, PkgMgrBrew, PkgMgrPort,
   PkgMgrPkg, PkgMgrChoco, PkgMgrWinget]

/-- C9 counterexample: `flatpak` is one of the 14 recognized identifiers,
yet the git install dispatch returns an error for it instead of a command
sequence. -/
theorem repairGit_flatpak_counterexample :
    PkgMgrFlatpak ∈ recognizedManagers
    ∧ repairGitDispatch PkgMgrFlatpak
        = .error "git cannot be installed via flatpak, please install git manually" :=
  ⟨by decide, rfl⟩

/-- C9 (amended): for 13 of the 14 recognized package-manager identifiers
the git install dispatch returns a non-empty external command sequence;
for `flatpak` it returns a descriptive cannot-install error; for any
unrecognized identifier it returns an `unsupported package manager` error
naming the manager; the dispatch is a total function (it never panics). -/
theorem repairGit_dispatch_total (pm : String) :
    (pm ∈ recognizedManagers → pm ≠ PkgMgrFlatpak →
      ∃ cmds, repairGitDispatch pm = .ok cmds ∧ cmds ≠ [] ∧ ∀ c ∈ cmds, c ≠ [])
    ∧ (pm = PkgMgrFlatpak →
      repairGitDispatch pm
        = .error "git cannot be installed via flatpak, please install git manually")
    ∧ (pm ∉ recognizedManagers →
      repairGitDispatch pm = .error ("unsupported package manager: " ++ pm)) := by
  refine ⟨?_, ?_, ?_⟩
  · intro hm hnf
    fin_cases hm <;>
      first
        | exact absurd rfl hnf
        | exact ⟨_, rfl, by decide, by decide⟩
  · intro h
    subst h
    rfl
  · intro hm
    simp only [recognizedManagers, List.mem_cons, List.not_mem_nil, or_false,
      not_or] at hm
    obtain ⟨n1, n2, n3, n4, n5, n6, n7, n8, n9, n10, n11, n12, n13, n14⟩ := hm
    unfold repairGitDispatch
    simp [n1, n2, n3, n4, n5, n6, n7, n8, n9, n10, n11, n12, n13, n14]

/-- Closed witness for the amended C9 theorem at the recognized manager
`apt` and the unrecognized identifier `guix`. -/
theorem repairGit_dispatch_total_witness :
    (∃ cmds, repairGitDispatch PkgMgrApt = .ok cmds ∧ cmds ≠ [] ∧ ∀ c ∈ cmds, c ≠ [])
    ∧ repairGitDispatch "guix" = .error ("unsupported package manager: " ++ "guix") :=
  ⟨(repairGit_dispatch_total PkgMgrApt).1 (by decide) (by decide),
   (repairGit_dispatch_total "guix").2.2 (by decide)⟩

/-! Claim C10: the SSH config-port rewrite (`configureSSHPort`). -/

/-- Model of `strings.Split(content, newline)` at the character-list
level: the line pieces between newline characters. -/
def splitLinesList : List Char → List (List Char)
  | [] => [[]]
  | c :: cs =>
    if c = '\n' then [] :: splitLinesList cs
    else
      match splitLinesList cs with
      | [] => [[c]]
      | l :: ls => (c :: l) :: ls

/-- Model of `strings.Split(content, newline)` on strings. -/
def splitLines (s : String) : List String := (splitLinesList s.toList).map String.mk

/-- Model of `strings.Join(lines, newline)`. -/
def joinLines : List String → String
  | [] => ""
  | l :: ls => ls.foldl (fun acc x => acc ++ "\n" ++ x) l

/-- The line test of `configureSSHPort`: the trimmed line starts with
`Port ` or `#Port `. -/
def portDirective (line : String) : Bool :=
  strHasPre (strTrimSpace line) "Port " || strHasPre (strTrimSpace line) "#Port "

/-- The rewrite loop of `configureSSHPort`: replace the first matching line
with `Port <port>` (the Bool reports whether a replacement happened). -/
def replaceFirstPortLine (port : Nat) : List String → List String × Bool
  | [] => ([], false)
  | l :: ls =>
    if portDirective l then (("Port " ++ toString port) :: ls, true)
    else
      ((l :: (replaceFirstPortLine port ls).1), (replaceFirstPortLine port ls).2)

/-- Filesystem interactions of `configureSSHPort`. -/
inductive SSHConfigEvent where
  | readConfig
  | writeConfig (content : String)
deriving DecidableEq, Repr

/-- Go `configureSSHPort`: a no-op for the default port 22; otherwise read the
config, replace the first `Port `/`#Port ` line — or prepend a new `Port`
line when none exists — and write the joined lines back. -/
def configureSSHPort (port : Nat) (content : String) : List SSHConfigEvent :=
  if port = 22 then []
  else
    let lines := splitLines content
    let res := replaceFirstPortLine port lines
    let finalLines := if res.2 then res.1 else ("Port " ++ toString port) :: lines
    [.readConfig, .writeConfig (joinLines finalLines)]

/-- Characterization of the rewrite loop: on success the line list splits
around the first matching line, which alone is replaced; on failure the
list is returned unchanged and no line matches. -/
theorem replaceFirstPortLine_spec (port : Nat) :
    ∀ ls : List String,
      ((replaceFirstPortLine port ls).2 = true →
        ∃ pre l post, ls = pre ++ l :: post
          ∧ (∀ x ∈ pre, portDirective x = false)
          ∧ portDirective l = true
          ∧ (replaceFirstPortLine port ls).1
              = pre ++ ("Port " ++ toString port) :: post)
      ∧ ((replaceFirstPortLine port ls).2 = false →
        (replaceFirstPortLine port ls).1 = ls
        ∧ ∀ x ∈ ls, portDirective x = false) := by
  intro ls
  induction ls with
  | nil =>
    refine ⟨fun h => ?_, fun _ => ⟨rfl, by simp⟩⟩
    simp [replaceFirstPortLine] at h
  | cons l ls ih =>
    by_cases hl : portDirective l = true
    · refine ⟨fun _ => ⟨[], l, ls, rfl, by simp, hl, ?_⟩, fun h => ?_⟩
      · simp [replaceFirstPortLine, hl]
      · rw [show (replaceFirstPortLine port (l :: ls)).2 = true by
          simp [replaceFirstPortLine, hl]] at h
        exact absurd h (by simp)
    · have hl' : portDirective l = false := by simpa using hl
      have hstep1 : (replaceFirstPortLine port (l :: ls)).1
          = l :: (replaceFirstPortLine port ls).1 := by
        simp [replaceFirstPortLine, hl']
      have hstep2 : (replaceFirstPortLine port (l :: ls)).2
          = (replaceFirstPortLine port ls).2 := by
        simp [replaceFirstPortLine, hl']
      refine ⟨fun h => ?_, fun h => ?_⟩
      · rw [hstep2] at h
        obtain ⟨pre, m, post, hsplit, hpre, hm, hres⟩ := ih.1 h
        refine ⟨l :: pre, m, post, by simp [hsplit], ?_, hm, ?_⟩
        · intro x hx
          rcases List.mem_cons.mp hx with rfl | hx'
          · exact hl'
          · exact hpre x hx'
        · rw [hstep1, hres]
          rfl
      · rw [hstep2] at h
        obtain ⟨heq, hall⟩ := ih.2 h
        refine ⟨by rw [hstep1, heq], ?_⟩
        intro x hx
        rcases List.mem_cons.mp hx with rfl | hx'
        · exact hl'
        · exact hall x hx'

/-- C10: the SSH config-port rewrite is a no-op for port 22 (the file is
neither read nor written); for any other port it reads the file once and
writes it once, modifying at most one line: the first line whose trimmed
form starts with `Port ` or `#Port ` is replaced by `Port <port>` with
every other line preserved verbatim, and when no line matches, a new
`Port <port>` line is prepended with all lines preserved. -/
theorem configureSSHPort_spec (port : Nat) (content : String) :
    (port = 22 → configureSSHPort port content = [])
    ∧ (port ≠ 22 →
        ∃ ls', configureSSHPort port content
            = [SSHConfigEvent.readConfig, .writeConfig (joinLines ls')]
          ∧ ((∃ pre l post,
                splitLines content = pre ++ l :: post
                ∧ (∀ x ∈ pre, portDirective x = false)
                ∧ portDirective l = true
                ∧ ls' = pre ++ ("Port " ++ toString port) :: post)
             ∨ ((∀ x ∈ splitLines content, portDirective x = false)
                ∧ ls' = ("Port " ++ toString port) :: splitLines content))) := by
  constructor
  · intro h
    simp [configureSSHPort, h]
  · intro h
    by_cases hr : (replaceFirstPortLine port (splitLines content)).2 = true
    · obtain ⟨pre, l, post, hsplit, hpre, hl, hres⟩ :=
        (replaceFirstPortLine_spec port (splitLines content)).1 hr
      refine ⟨(replaceFirstPortLine port (splitLines content)).1, ?_,
        Or.inl ⟨pre, l, post, hsplit, hpre, hl, hres⟩⟩
      simp [configureSSHPort, h, hr]
    · have hr' : (replaceFirstPortLine port (splitLines content)).2 = false := by
        simpa using hr
      obtain ⟨heq, hall⟩ := (replaceFirstPortLine_spec port (splitLines content)).2 hr'
      refine ⟨("Port " ++ toString port) :: splitLines content, ?_, Or.inr ⟨hall, rfl⟩⟩
      simp [configureSSHPort, h, hr']

/-- Closed witness for the C10 theorem: at port 22 nothing happens, and at
port 2222 a concrete two-line config is read once and written once with
the frame property. -/
theorem configureSSHPort_spec_witness :
    configureSSHPort 22 "#Port 22\nX11Forwarding yes" = []
    ∧ ∃ ls', configureSSHPort 2222 "#Port 22\nX11Forwarding yes"
        = [SSHConfigEvent.readConfig, .writeConfig (joinLines ls')]
      ∧ ((∃ pre l post,
            splitLines "#Port 22\nX11Forwarding yes" = pre ++ l :: post
            ∧ (∀ x ∈ pre, portDirective x = false)
            ∧ portDirective l = true
            ∧ ls' = pre ++ ("Port " ++ toString 2222) :: post)
         ∨ ((∀ x ∈ splitLines "#Port 22\nX11Forwarding yes", portDirective x = false)
            ∧ ls' = ("Port " ++ toString 2222) :: splitLines "#Port 22\nX11Forwarding yes")) :=
  ⟨(configureSSHPort_spec 22 "#Port 22\nX11Forwarding yes").1 rfl,
   (configureSSHPort_spec 2222 "#Port 22\nX11Forwarding yes").2 (by decide)⟩

end Autark
